import Mathlib

/-!
Verification development for the anaconda installer-support modules.

The core under study is the service-availability observation and
startup-coordination protocol (StartRHSMTask / RHSMObserver) exercised by
tests/nosetests/pyanaconda_tests/rhsm_observer_test.py, plus the user-creation
task of pyanaconda/modules/users/installation.py.

The implementation modules of StartRHSMTask and RHSMObserver
(pyanaconda/modules/subscription/initialization.py and rhsm_observer.py) are
not part of this source tree; only their test suite is.  Those components are
therefore modelled from the specification (and the expectations pinned by the
test suite), as marked in the doc comments below.  The user-creation task is
embedded directly from pyanaconda/modules/users/installation.py.
-/

namespace Anaconda

/-- Modelled from the spec: the StartupTask lifecycle
"not started -> running -> completed(success) | completed(failure)"; the
result is absent until completion, then a boolean.  The missing source is
StartRHSMTask in pyanaconda/modules/subscription/initialization.py. -/
inductive TaskState where
  | notStarted
  | running
  | finished (result : Bool)
  deriving DecidableEq, Repr

/-- Modelled from the spec: the record of externally visible calls made by one
StartRHSMTask.run() invocation: the service-manager start primitive
(start_service, with its unit-name arguments), how many times the RHSM
configuration proxy was requested, and the Set calls made on the management
proxy as (property, value, context) triples. -/
structure RunTrace where
  startCalls : List String
  configProxyRequests : Nat
  setCalls : List (String × String × String)
  deriving DecidableEq, Repr

/-- Modelled from the spec: StartRHSMTask.run().  The missing source is
pyanaconda/modules/subscription/initialization.py.  The spec:
"run() -> bool: starts the external service (e.g., via a system service
manager); if the start command reports a non-zero/failure status, returns
False immediately without further action.  On success, performs one-time
post-start configuration (e.g., setting a remote configuration property
through a management proxy) and returns True."  The concrete unit name
("rhsm.service") and the Set arguments are the expectations pinned by
success_test and unit_start_failed_test in rhsm_observer_test.py.  The
function takes the integer status reported by the start primitive and
returns the boolean result together with the call trace. -/
def StartRHSMTask.run (startStatus : Int) : Bool × RunTrace :=
  if startStatus = 0 then
    (true, ⟨[("rhsm.service" : String)], 1,
            [(("logging.default_log_level" : String), ("DEBUG" : String), ("" : String))]⟩)
  else
    (false, ⟨[("rhsm.service" : String)], 0, []⟩)

/-- Modelled from the spec: StartRHSMTask.is_service_available(timeout).
The missing source is pyanaconda/modules/subscription/initialization.py.
The spec: "If the task has already finished (terminal state reached), returns
the stored boolean result immediately - no blocking.  If the task is still
running, this operation blocks the calling context until either (a) the task
reaches its terminal state, or (b) the given timeout elapses - implemented as
a bounded wait on the task's execution unit.  After the wait returns, the
final answer is the task's stored result if the task has by then reached a
terminal state; otherwise it must be treated as False.  Re-sampling 'is the
task still running' must happen after the bounded wait returns, not before."
The task never run is "not running" with no result: answer False.

`pre` is the task state sampled at entry, `post` the state re-sampled after
the bounded wait returns (the task may finish during the wait).  The second
component of the result lists the timeouts the execution unit's join was
called with. -/
def StartRHSMTask.is_service_available (pre post : TaskState) (timeout : Nat) :
    Bool × List Nat :=
  match pre with
  | .running =>
      match post with
      | .finished b => (b, [timeout])
      | _ => (false, [timeout])
  | .finished b => (b, [])
  | .notStarted => (false, [])

/-- C7: if the service-manager start primitive reports status 0,
StartRHSMTask.run() calls the management-proxy Set exactly once with property
"logging.default_log_level", string value "DEBUG" and empty context, requests
the configuration proxy once, calls the start primitive exactly once with the
service unit name "rhsm.service", and returns True. -/
theorem run_success_spec :
    StartRHSMTask.run 0 =
      (true, ⟨[("rhsm.service" : String)], 1,
              [(("logging.default_log_level" : String), ("DEBUG" : String), ("" : String))]⟩) :=
  rfl

/-- C6: if the service-manager start primitive reports a non-zero status,
StartRHSMTask.run() returns False as a boolean result, the management-proxy
Set is never called, and the configuration proxy is never requested (while the
start primitive itself was still invoked once). -/
theorem run_start_failed_spec (s : Int) (h : s ≠ 0) :
    (StartRHSMTask.run s).1 = false ∧
    (StartRHSMTask.run s).2.setCalls = [] ∧
    (StartRHSMTask.run s).2.configProxyRequests = 0 ∧
    (StartRHSMTask.run s).2.startCalls = [("rhsm.service" : String)] := by
  simp [StartRHSMTask.run, h]

/-- C6 witness: the theorem applied at the concrete failing status 1, the one
used by unit_start_failed_test. -/
theorem run_start_failed_spec_witness :
    (1 : Int) ≠ 0 ∧
    ((StartRHSMTask.run 1).1 = false ∧
     (StartRHSMTask.run 1).2.setCalls = [] ∧
     (StartRHSMTask.run 1).2.configProxyRequests = 0 ∧
     (StartRHSMTask.run 1).2.startCalls = [("rhsm.service" : String)]) :=
  ⟨by decide, run_start_failed_spec 1 (by decide)⟩

/-- C1: is_service_available called while the task is still running performs
exactly one bounded wait with exactly the given timeout on the task's
execution unit; the result is the stored result of the state re-sampled after
the wait when that state is terminal, and False otherwise; in particular a
task that finishes with result True during the wait yields True. -/
theorem is_service_available_running_spec (post : TaskState) (t : Nat) :
    (StartRHSMTask.is_service_available .running post t).2 = [t] ∧
    (StartRHSMTask.is_service_available .running post t).1 =
      (match post with
       | .finished b => b
       | _ => false) ∧
    (StartRHSMTask.is_service_available .running (.finished true) t).1 = true := by
  cases post <;> simp [StartRHSMTask.is_service_available]

/-- C8: is_service_available called after the task reached its terminal state
returns the stored boolean result with no bounded wait performed, for every
timeout; and the call is a pure read: repeated calls (with any timeout, at any
later re-sampled state) return the same value and perform no wait. -/
theorem is_service_available_terminal_spec (b : Bool) (post post' : TaskState)
    (t t' : Nat) :
    StartRHSMTask.is_service_available (.finished b) post t = (b, []) ∧
    StartRHSMTask.is_service_available (.finished b) post t =
      StartRHSMTask.is_service_available (.finished b) post' t' := by
  constructor <;> rfl

/-- C9: is_service_available called before run() has ever been invoked (task
not started, no result stored) returns False, for every timeout, with no
bounded wait performed. -/
theorem is_service_available_not_started_spec (post : TaskState) (t : Nat) :
    StartRHSMTask.is_service_available .notStarted post t = (false, []) :=
  rfl

/-- Modelled from the spec: "one recognized timing constant, the default
service-startup timeout" (RHSM_SERVICE_TIMEOUT of pyanaconda.core.constants,
which is not part of this source tree), in abstract time units. -/
def RHSM_SERVICE_TIMEOUT : Nat := 60

/-- Modelled from the spec: the RHSMObserver state.  The missing source is
pyanaconda/modules/subscription/rhsm_observer.py.  The spec: the observer
holds "is_service_available: bool (current belief about remote service
reachability)" and the "service_available and service_unavailable
notification channels".  Each channel is modelled as the list of payloads
emitted on it; the payload carried by an emission is an observer identity,
so that "carrying the observer instance itself" is expressible. -/
structure RHSMObserver where
  id : Nat
  is_service_available : Bool
  availableEmits : List Nat
  unavailableEmits : List Nat
  deriving DecidableEq, Repr

/-- Modelled from the spec: RHSMObserver construction.  "Initial state:
is_service_available = False"; no notification has been emitted yet. -/
def RHSMObserver.make (id : Nat) : RHSMObserver :=
  ⟨id, false, [], []⟩

/-- Modelled from the spec: RHSMObserver._service_name_appeared_callback().
"Sets availability to True and emits exactly once on the service_available
channel with self as payload; must not emit on service_unavailable." -/
def RHSMObserver.service_name_appeared_callback (o : RHSMObserver) : RHSMObserver :=
  { o with is_service_available := true,
           availableEmits := o.availableEmits ++ [o.id] }

/-- Modelled from the spec: the RHSMObserver is constructed with "an optional
fixed timeout value (defaults to a well-known constant)"; this computes the
timeout the observer passes to its startup check. -/
def RHSMObserver.configuredTimeout (override : Option Nat) : Nat :=
  override.getD RHSM_SERVICE_TIMEOUT

/-- Modelled from the spec: the error raised by get_proxy.  The spec demands
"a distinct, typed failure (not a generic exception)"; the test suite pins it
as DBusObserverError.  A generic error constructor is present so that
"distinct" is expressible. -/
inductive ObserverError where
  | dbusObserverError
  | genericError
  deriving DecidableEq, Repr

/-- Modelled from the spec: the outcome of one get_proxy invocation - either
an acquired proxy or a raised error. -/
inductive ProxyResult (π : Type) where
  | ok (proxy : π)
  | error (e : ObserverError)
  deriving DecidableEq

/-- Modelled from the spec: the record of collaborator calls made by one
get_proxy invocation: the timeouts the injected startup_check was called
with, and the service names the underlying proxy-acquisition primitive was
called with. -/
structure ProxyTrace where
  startupCheckCalls : List Nat
  proxyCalls : List String
  deriving DecidableEq, Repr

/-- Modelled from the spec: RHSMObserver.get_proxy(service_name).  The
missing source is pyanaconda/modules/subscription/rhsm_observer.py.  The
spec: "1. If is_service_available is currently True, delegate directly to
the underlying proxy-acquisition primitive and return its result.  No
startup check is performed.  2. If False, call startup_check(timeout).  If
it returns True, proceed to acquire and return the proxy.  If it returns
False, fail with a distinct service-unavailable error and must NOT attempt
proxy acquisition."  `startup_check` and `timeout` are the construction-time
injected check function and configured timeout; `proxyPrim` is the underlying
proxy-acquisition primitive of the bus layer. -/
def RHSMObserver.get_proxy {π : Type} (o : RHSMObserver) (startup_check : Nat → Bool)
    (timeout : Nat) (proxyPrim : String → π) (name : String) :
    ProxyResult π × ProxyTrace :=
  if o.is_service_available then
    (.ok (proxyPrim name), ⟨[], [name]⟩)
  else if startup_check timeout then
    (.ok (proxyPrim name), ⟨[timeout], [name]⟩)
  else
    (.error .dbusObserverError, ⟨[timeout], []⟩)

/-- C5: a freshly constructed RHSMObserver has is_service_available = False;
after one invocation of the name-appeared callback it is True, the
service_available channel has received exactly one emission whose payload is
the observer itself, and the service_unavailable channel has received no
emission. -/
theorem observer_appeared_spec (id : Nat) :
    (RHSMObserver.make id).is_service_available = false ∧
    ((RHSMObserver.make id).service_name_appeared_callback).is_service_available = true ∧
    ((RHSMObserver.make id).service_name_appeared_callback).availableEmits = [id] ∧
    ((RHSMObserver.make id).service_name_appeared_callback).unavailableEmits = [] := by
  refine ⟨rfl, rfl, ?_, rfl⟩
  simp [RHSMObserver.make, RHSMObserver.service_name_appeared_callback]

/-- C3: get_proxy invoked when is_service_available is True delegates to the
proxy primitive exactly once with the given name and returns its result,
without ever invoking the injected startup_check; and for every observer
state the startup_check is called at most once per invocation, and never when
availability is already True. -/
theorem get_proxy_available_spec {π : Type} (o o' : RHSMObserver)
    (startup_check : Nat → Bool) (t : Nat) (proxyPrim : String → π) (name : String)
    (h : o.is_service_available = true) :
    o.get_proxy startup_check t proxyPrim name = (.ok (proxyPrim name), ⟨[], [name]⟩) ∧
    (o'.get_proxy startup_check t proxyPrim name).2.startupCheckCalls.length ≤ 1 ∧
    (o'.is_service_available = true →
      (o'.get_proxy startup_check t proxyPrim name).2.startupCheckCalls = []) := by
  refine ⟨by simp [RHSMObserver.get_proxy, h], ?_, ?_⟩
  · by_cases h' : o'.is_service_available <;>
      by_cases hc : startup_check t <;>
      simp [RHSMObserver.get_proxy, h', hc]
  · intro h'
    simp [RHSMObserver.get_proxy, h']

/-- C3 witness: the theorem applied at a concrete available observer, a
concrete check function and a concrete proxy primitive. -/
theorem get_proxy_available_spec_witness :
    ({ RHSMObserver.make 7 with is_service_available := true }).is_service_available = true ∧
    (({ RHSMObserver.make 7 with is_service_available := true }).get_proxy
        (fun _ => false) 60 (fun n => n ++ ("-proxy" : String)) ("BAZ" : String) =
      (.ok ("BAZ-proxy" : String), ⟨[], [("BAZ" : String)]⟩) ∧
     ((RHSMObserver.make 7).get_proxy
        (fun _ => false) 60 (fun n => n ++ ("-proxy" : String))
        ("BAZ" : String)).2.startupCheckCalls.length ≤ 1 ∧
     ((RHSMObserver.make 7).is_service_available = true →
       ((RHSMObserver.make 7).get_proxy
          (fun _ => false) 60 (fun n => n ++ ("-proxy" : String))
          ("BAZ" : String)).2.startupCheckCalls = [])) :=
  ⟨rfl, get_proxy_available_spec { RHSMObserver.make 7 with is_service_available := true }
    (RHSMObserver.make 7) (fun _ => false) 60
    (fun n => n ++ ("-proxy" : String)) ("BAZ" : String) rfl⟩

/-- C2: get_proxy invoked when is_service_available is False and the injected
startup_check returns False raises the typed DBusObserverError (not the
generic error), and the proxy-acquisition primitive is never called. -/
theorem get_proxy_unavailable_failure_spec {π : Type} (o : RHSMObserver)
    (startup_check : Nat → Bool) (t : Nat) (proxyPrim : String → π) (name : String)
    (h : o.is_service_available = false) (hc : startup_check t = false) :
    o.get_proxy startup_check t proxyPrim name =
      (.error .dbusObserverError, ⟨[t], []⟩) := by
  simp [RHSMObserver.get_proxy, h, hc]

/-- C2 witness: the theorem applied at a concrete fresh observer with a check
that reports failure. -/
theorem get_proxy_unavailable_failure_spec_witness :
    (RHSMObserver.make 7).is_service_available = false ∧
    (fun _ : Nat => false) 60 = false ∧
    (RHSMObserver.make 7).get_proxy (fun _ => false) 60
        (fun n => n ++ ("-proxy" : String)) ("BAZ" : String) =
      (.error .dbusObserverError, ⟨[60], []⟩) :=
  ⟨rfl, rfl, get_proxy_unavailable_failure_spec (RHSMObserver.make 7)
    (fun _ => false) 60 (fun n => n ++ ("-proxy" : String)) ("BAZ" : String) rfl rfl⟩

/-- C4: get_proxy invoked when is_service_available is False and the injected
startup_check returns True calls startup_check exactly once with the
configured timeout (the default RHSM_SERVICE_TIMEOUT when no override is
given), then calls the proxy primitive exactly once with the given name and
returns the proxy. -/
theorem get_proxy_unavailable_success_spec {π : Type} (o : RHSMObserver)
    (startup_check : Nat → Bool) (proxyPrim : String → π) (name : String)
    (h : o.is_service_available = false)
    (hc : startup_check (RHSMObserver.configuredTimeout none) = true) :
    o.get_proxy startup_check (RHSMObserver.configuredTimeout none) proxyPrim name =
      (.ok (proxyPrim name), ⟨[RHSM_SERVICE_TIMEOUT], [name]⟩) ∧
    RHSMObserver.configuredTimeout none = RHSM_SERVICE_TIMEOUT := by
  refine ⟨?_, rfl⟩
  simp [RHSMObserver.configuredTimeout] at hc
  simp [RHSMObserver.get_proxy, h, hc, RHSMObserver.configuredTimeout]

/-- C4 witness: the theorem applied at a concrete fresh observer with a check
that reports success. -/
theorem get_proxy_unavailable_success_spec_witness :
    (RHSMObserver.make 7).is_service_available = false ∧
    (fun _ : Nat => true) (RHSMObserver.configuredTimeout none) = true ∧
    ((RHSMObserver.make 7).get_proxy (fun _ => true)
        (RHSMObserver.configuredTimeout none)
        (fun n => n ++ ("-proxy" : String)) ("BAZ" : String) =
      (.ok ("BAZ-proxy" : String), ⟨[RHSM_SERVICE_TIMEOUT], [("BAZ" : String)]⟩) ∧
     RHSMObserver.configuredTimeout none = RHSM_SERVICE_TIMEOUT) :=
  ⟨rfl, rfl, get_proxy_unavailable_success_spec (RHSMObserver.make 7)
    (fun _ => true) (fun n => n ++ ("-proxy" : String)) ("BAZ" : String) rfl rfl⟩

/-- From pyanaconda/modules/common/structures/user.py (referenced by the
source comment in installation.py: "UserData uses -1 for not-set uid/gid
while the function takes None for not-set"). -/
def USER_UID_NOT_SET : Int := -1

/-- From pyanaconda/modules/common/structures/user.py, the not-set marker for
group ids (see USER_UID_NOT_SET). -/
def USER_GID_NOT_SET : Int := -1

/-- The fields of a UserData instance that CreateUsersTask._create_users
passes to users.create_user (pyanaconda/modules/users/installation.py,
lines 110-120). -/
structure UserData where
  name : String
  password : String
  is_crypted : Bool
  lock : Bool
  homedir : String
  uid : Int
  gid : Int
  groups : List String
  shell : String
  gecos : String
  deriving DecidableEq, Repr

/-- The uid translation of CreateUsersTask._create_users: "UserData uses -1
for not-set uid/gid while the function takes None for not-set"
(installation.py lines 90-92). -/
def uidArg (u : UserData) : Option Int :=
  if u.uid = USER_UID_NOT_SET then none else some u.uid

/-- The gid translation of CreateUsersTask._create_users (installation.py
lines 93-95). -/
def gidArg (u : UserData) : Option Int :=
  if u.gid = USER_GID_NOT_SET then none else some u.gid

/-- The outcome of one users.create_user call, as observed by the except
clause of CreateUsersTask._create_users: success, a ValueError (caught and
logged, installation.py lines 121-122), or any other exception (uncaught,
hence propagated out of the loop). -/
inductive CreateOutcome where
  | ok
  | valueError (msg : String)
  | otherError (msg : String)
  deriving DecidableEq, Repr

/-- Whether an outcome of users.create_user is handled inside the loop body
of _create_users (only ValueError is caught). -/
def CreateOutcome.isHandled : CreateOutcome → Bool
  | .otherError _ => false
  | _ => true

/-- The record of externally visible effects of one CreateUsersTask run: the
execInSysroot invocations, the users.create_user attempts as (user data,
translated uid, translated gid) triples in order, and the warning messages
logged for caught ValueErrors. -/
structure CreateUsersTrace where
  execCalls : List (String × List String)
  attempted : List (UserData × Option Int × Option Int)
  warnings : List String
  deriving DecidableEq, Repr

/-- The two execInSysroot calls made for every entry of the user-data list
(installation.py lines 103-108: userdel -r live, groupdel live; their return
codes are checked and ignored). -/
def execsPerUser : List (String × List String) :=
  [(("userdel" : String), [("-r" : String), ("live" : String)]),
   (("groupdel" : String), [("live" : String)])]

/-- CreateUsersTask._create_users (installation.py lines 87-122): for each
entry of the user-data list, translate the -1 uid/gid markers to None, run
the userdel/groupdel cleanup, then call users.create_user with the entry's
fields, the translated ids and the sysroot; a ValueError is caught and logged
as a warning and the loop continues; any other exception propagates (modelled
as the Except error case, which aborts the loop as an uncaught Python
exception would).  `create_user` is the external users.create_user
collaborator, receiving the sysroot, the user data and the translated ids,
and reporting its outcome. -/
def CreateUsersTask._create_users (sysroot : String)
    (create_user : String → UserData → Option Int → Option Int → CreateOutcome) :
    List UserData → Except String CreateUsersTrace
  | [] => .ok ⟨[], [], []⟩
  | u :: rest =>
    match create_user sysroot u (uidArg u) (gidArg u) with
    | .ok =>
        (CreateUsersTask._create_users sysroot create_user rest).map
          (fun t => ⟨execsPerUser ++ t.execCalls,
                     (u, uidArg u, gidArg u) :: t.attempted, t.warnings⟩)
    | .valueError msg =>
        (CreateUsersTask._create_users sysroot create_user rest).map
          (fun t => ⟨execsPerUser ++ t.execCalls,
                     (u, uidArg u, gidArg u) :: t.attempted, msg :: t.warnings⟩)
    | .otherError msg => .error msg

/-- C10: when users.create_user never raises anything other than ValueError,
CreateUsersTask.run() returns normally: every ValueError is caught and logged
as a warning rather than propagated, the loop attempts creation for every
entry of the list (in order, regardless of earlier ValueError failures), and
the logged warnings are exactly the messages of the failing entries in
order. -/
theorem create_users_value_error_spec (sysroot : String)
    (create_user : String → UserData → Option Int → Option Int → CreateOutcome)
    (l : List UserData)
    (h : ∀ u ∈ l, (create_user sysroot u (uidArg u) (gidArg u)).isHandled = true) :
    ∃ t : CreateUsersTrace,
      CreateUsersTask._create_users sysroot create_user l = .ok t ∧
      t.attempted = l.map (fun u => (u, uidArg u, gidArg u)) ∧
      t.warnings = l.filterMap (fun u =>
        match create_user sysroot u (uidArg u) (gidArg u) with
        | .valueError msg => some msg
        | _ => none) := by
  induction l with
  | nil => exact ⟨⟨[], [], []⟩, rfl, rfl, rfl⟩
  | cons u rest ih =>
    obtain ⟨t, ht, hatt, hwarn⟩ := ih (fun v hv => h v (List.mem_cons_of_mem _ hv))
    have hu := h u (List.mem_cons_self _ _)
    cases hco : create_user sysroot u (uidArg u) (gidArg u) with
    | ok =>
        refine ⟨⟨execsPerUser ++ t.execCalls,
                 (u, uidArg u, gidArg u) :: t.attempted, t.warnings⟩, ?_, ?_, ?_⟩
        · simp [CreateUsersTask._create_users, hco, ht, Except.map]
        · simp [hatt]
        · simp [hwarn, List.filterMap_cons, hco]
    | valueError msg =>
        refine ⟨⟨execsPerUser ++ t.execCalls,
                 (u, uidArg u, gidArg u) :: t.attempted, msg :: t.warnings⟩, ?_, ?_, ?_⟩
        · simp [CreateUsersTask._create_users, hco, ht, Except.map]
        · simp [hatt]
        · simp [hwarn, List.filterMap_cons, hco]
    | otherError msg =>
        rw [hco] at hu
        exact absurd hu (by simp [CreateOutcome.isHandled])

/-- A concrete user-data list for exercising _create_users: the middle entry
triggers a ValueError in the sample create_user collaborator. -/
def sampleUsers : List UserData :=
  [⟨("alice" : String), ("pw" : String), false, false, ("" : String), 1000, -1,
    [("wheel" : String)], ("" : String), ("" : String)⟩,
   ⟨("bob" : String), ("pw" : String), false, false, ("" : String), -1, -1,
    [], ("" : String), ("" : String)⟩,
   ⟨("carol" : String), ("pw" : String), false, false, ("" : String), -1, 1001,
    [], ("" : String), ("" : String)⟩]

/-- A concrete users.create_user collaborator that raises ValueError for the
user named bob and succeeds for everyone else. -/
def sampleCreate (_r : String) (u : UserData) (_u _g : Option Int) : CreateOutcome :=
  if u.name = ("bob" : String) then .valueError ("user bob exists" : String) else .ok

/-- C10 witness: the theorem applied at the concrete sample list, where the
middle entry fails with a ValueError and the other two succeed. -/
theorem create_users_value_error_spec_witness :
    (∀ u ∈ sampleUsers,
      (sampleCreate ("/mnt/sysroot" : String) u (uidArg u) (gidArg u)).isHandled = true) ∧
    (∃ t : CreateUsersTrace,
      CreateUsersTask._create_users ("/mnt/sysroot" : String) sampleCreate sampleUsers = .ok t ∧
      t.attempted = sampleUsers.map (fun u => (u, uidArg u, gidArg u)) ∧
      t.warnings = sampleUsers.filterMap (fun u =>
        match sampleCreate ("/mnt/sysroot" : String) u (uidArg u) (gidArg u) with
        | .valueError msg => some msg
        | _ => none)) :=
  ⟨by decide, create_users_value_error_spec ("/mnt/sysroot" : String)
    sampleCreate sampleUsers (by decide)⟩

end Anaconda
